import Mathlib

/-!
Verification of the air-pollution dashboard data pipeline (`app.py`).

The development shallowly embeds the data-preparation and aggregation logic of
the dashboard script: loading and normalising the CSV (`load_data`, lines 24-46),
the sidebar filters (`city_options`, `df_filtered`, `df_long_filtered`,
`df_country_filtered`, lines 73-103), the per-country aggregates and top-10
ranking (`country_year`, `top10`, lines 161-186), and the KPI block
(`country_mean_all_years` and the sentinel branch, lines 117-131).

Tables are lists of rows; a numeric cell is `Option ℚ`, with `none` playing the
role of NaN (pandas' missing value) and `ℚ` standing in for the float readings.
-/

namespace AirPollution

/-- Numeric cell of a value column, after `pd.to_numeric(errors="coerce")`:
`none` models NaN (an empty or unparseable raw cell), `some v` a parsed reading. -/
abbrev Cell := Option ℚ

/-- One row of the CSV: a city, a country, and one cell per value column,
positionally aligned with the table's column labels. -/
structure Row where
  city : String
  country : String
  cells : List Cell
deriving DecidableEq

/-- A tabular dataset: the value-column labels (e.g. "2017".."2023") plus the
rows. Models the pandas DataFrame with its `city` and `country` id columns. -/
structure Table where
  cols : List String
  rows : List Row
deriving DecidableEq

/-- Python `str.isdigit` as used in `[c for c in df.columns if c.isdigit()]`
(app.py line 28): nonempty and all characters decimal digits. -/
def isDigitStr (s : String) : Bool := !s.data.isEmpty && s.data.all Char.isDigit

/-- Year columns of a table: `year_cols = [c for c in df.columns if c.isdigit()]`
(app.py line 28). -/
def yearColsOf (t : Table) : List String := t.cols.filter isDigitStr

/-- Zero-as-missing normalisation of one cell:
`df[year_cols].replace(0, np.nan)` (app.py line 35). -/
def zeroToNone (c : Cell) : Cell :=
  match c with
  | some v => if v = 0 then none else some v
  | none => none

/-- Normalisation of a row's cells against the column labels: the zero-as-missing
replacement applies exactly to the year (digit-labelled) columns. -/
def normalizeCells : List String → List Cell → List Cell
  | c :: cs, v :: vs => (if isDigitStr c then zeroToNone v else v) :: normalizeCells cs vs
  | _, _ => []

/-- Normalisation step of `load_data` (app.py lines 31-35): numeric coercion is
already reflected in the `Cell` type, and zeros in year columns become absent. -/
def normalize (t : Table) : Table :=
  ⟨t.cols, t.rows.map fun r => ⟨r.city, r.country, normalizeCells t.cols r.cells⟩⟩

/-- Value of a row at a column label: the cell aligned with the first column
equal to the label, absent if no column matches. -/
def cellAt : List String → List Cell → String → Cell
  | c :: cs, v :: vs, y => if c = y then v else cellAt cs vs y
  | _, _, _ => none

/-- One row of the long (melted) table: `(city, country, year, pm25)`, with the
year already cast to an integer (app.py line 44). -/
structure LongRow where
  city : String
  country : String
  year : ℤ
  pm25 : Cell
deriving DecidableEq

/-- Cast of a digit-string year label to an integer, modelling
`df_long["year"].astype(int)` (app.py line 44). -/
def yearToInt (y : String) : ℤ := ((y.toNat?).getD 0 : ℤ)

/-- Melt to long format (app.py lines 38-44): one long row per year column and
wide row, carrying over the wide cell as `pm25`, with the year cast to `ℤ`. -/
def melt (df : Table) : List LongRow :=
  (yearColsOf df).flatMap fun y =>
    df.rows.map fun r => ⟨r.city, r.country, yearToInt y, cellAt df.cols r.cells y⟩

/-- Result of `load_data` (app.py line 46): the wide table, the long table and
the recognised year labels. -/
structure Loaded where
  df : Table
  df_long : List LongRow
  year_cols : List String
deriving DecidableEq

/-- The whole of `load_data` (app.py lines 24-46), starting from the raw table
(its cells already numeric-or-absent, as `pd.to_numeric(errors="coerce")`
leaves them): normalise zeros away, melt, and report the year columns. -/
def load_data (t : Table) : Loaded :=
  let df := normalize t
  ⟨df, melt df, yearColsOf df⟩

/-! Helper lemmas about normalisation and melting. -/

/-- A normalised cell is never `some 0`. -/
theorem zeroToNone_ne_zero (c : Cell) : zeroToNone c ≠ some 0 := by
  cases c with
  | none => simp [zeroToNone]
  | some v =>
    by_cases hv : v = 0 <;> simp [zeroToNone, hv]

/-- At a digit-labelled column, the normalised cell is exactly the
zero-as-missing image of the raw cell. -/
theorem cellAt_normalizeCells :
    ∀ (cols : List String) (cells : List Cell) (y : String), isDigitStr y = true →
      cellAt cols (normalizeCells cols cells) y = zeroToNone (cellAt cols cells y)
  | [], cells, y, _ => by
    cases cells <;> simp [normalizeCells, cellAt, zeroToNone]
  | _ :: _, [], y, _ => by
    simp [normalizeCells, cellAt, zeroToNone]
  | c :: cs, v :: vs, y, hy => by
    by_cases hc : c = y
    · subst hc
      simp [normalizeCells, cellAt, hy]
    · simp [normalizeCells, cellAt, hc, cellAt_normalizeCells cs vs y hy]

/-- After normalisation, the cell of any row at any digit-labelled column is
never `some 0`. -/
theorem cellAt_normalizeCells_ne_zero (cols : List String) (cells : List Cell)
    (y : String) (hy : isDigitStr y = true) :
    cellAt cols (normalizeCells cols cells) y ≠ some 0 := by
  rw [cellAt_normalizeCells cols cells y hy]
  exact zeroToNone_ne_zero _

/-- Membership description of the melted table. -/
theorem mem_melt (df : Table) (lr : LongRow) :
    lr ∈ melt df ↔ ∃ y ∈ yearColsOf df, ∃ r ∈ df.rows,
      lr = ⟨r.city, r.country, yearToInt y, cellAt df.cols r.cells y⟩ := by
  simp [melt, List.mem_flatMap, List.mem_map, eq_comm]

/-- Every wide row and year column contribute their long row to the melt. -/
theorem mk_mem_melt (df : Table) {r : Row} {y : String}
    (hr : r ∈ df.rows) (hy : y ∈ yearColsOf df) :
    (⟨r.city, r.country, yearToInt y, cellAt df.cols r.cells y⟩ : LongRow) ∈ melt df := by
  rw [mem_melt]
  exact ⟨y, hy, r, hr, rfl⟩

/-- Length of the melted table: one long row per (year column, wide row) pair. -/
theorem melt_length (df : Table) :
    (melt df).length = (yearColsOf df).length * df.rows.length := by
  unfold melt
  induction yearColsOf df with
  | nil => simp
  | cons y ys ih => simp [List.flatMap_cons, ih, Nat.succ_mul, Nat.add_comm]

/-! Sidebar filters (app.py lines 73-103). -/

/-- Sorted distinct values of a list of strings, modelling pandas
`sorted(series.unique())` and the sorted group keys of `groupby`. -/
def sortedUnique (l : List String) : List String :=
  (l.dedup).insertionSort (· ≤ ·)

/-- City dropdown options (app.py lines 73-76): all cities when the country
selection is "All", otherwise the cities of the rows of that country. -/
def city_options (selected_country : String) (df : Table) : List String :=
  if selected_country = "All" then sortedUnique (df.rows.map (·.city))
  else sortedUnique ((df.rows.filter fun r => r.country = selected_country).map (·.city))

/-- Full filter `df_filtered` (app.py lines 88-92): restrict to the selected
country unless "All", then to the selected city unless "All". -/
def df_filtered (selected_country selected_city : String) (df : Table) : Table :=
  let d1 := if selected_country = "All" then df.rows
            else df.rows.filter fun r => r.country = selected_country
  let d2 := if selected_city = "All" then d1
            else d1.filter fun r => r.city = selected_city
  ⟨df.cols, d2⟩

/-- Country-only filter `df_country_filtered` (app.py lines 101-103). -/
def df_country_filtered (selected_country : String) (df : Table) : Table :=
  if selected_country = "All" then df
  else ⟨df.cols, df.rows.filter fun r => r.country = selected_country⟩

/-- Companion long-table filter `df_long_filtered` (app.py lines 94-98): inner
merge of the long table with the filtered wide table's (city, country) key
column pair, keeping left (long) order and one copy per matching key row. -/
def df_long_filtered (long : List LongRow) (dfF : Table) : List LongRow :=
  long.flatMap fun lr =>
    (dfF.rows.map fun r => (r.city, r.country)).filterMap fun k =>
      if lr.city = k.1 ∧ lr.country = k.2 then some lr else none

/-- Modelled from the spec: app.py provides only the country and city predicates
(lines 88-92); the optional numeric range on one selected year's value of the
Filter contract is absent from this file. A row satisfies the range predicate
only when its cell for that year is present and lies within the closed
interval; an absent cell never satisfies it. -/
def rangePred (cols : List String) (year : String) (lo hi : ℚ) (r : Row) : Bool :=
  match cellAt cols r.cells year with
  | some v => decide (lo ≤ v ∧ v ≤ hi)
  | none => false

/-- Modelled from the spec: the full Filter operation, the code's country and
city predicates conjoined with the spec's optional numeric range predicate. -/
def df_filtered_range (selected_country selected_city : String)
    (range : Option (String × ℚ × ℚ)) (df : Table) : Table :=
  let base := df_filtered selected_country selected_city df
  match range with
  | none => base
  | some (y, lo, hi) => ⟨base.cols, base.rows.filter (rangePred base.cols y lo hi)⟩

/-- The filtered rows form a sublist of the original rows. -/
theorem df_filtered_sublist (selected_country selected_city : String) (df : Table) :
    List.Sublist (df_filtered selected_country selected_city df).rows df.rows := by
  unfold df_filtered
  by_cases hc : selected_country = "All" <;> by_cases hy : selected_city = "All"
  · simp [hc, hy]
  · simpa [hc, hy] using List.filter_sublist _
  · simpa [hc, hy] using List.filter_sublist _
  · simpa [hc, hy] using (List.filter_sublist _).trans (List.filter_sublist _)

/-- Membership description of the fully filtered wide table. -/
theorem mem_df_filtered (selected_country selected_city : String) (df : Table) (r : Row) :
    r ∈ (df_filtered selected_country selected_city df).rows ↔
      r ∈ df.rows ∧ (selected_country = "All" ∨ r.country = selected_country) ∧
        (selected_city = "All" ∨ r.city = selected_city) := by
  unfold df_filtered
  by_cases hc : selected_country = "All" <;> by_cases hy : selected_city = "All" <;>
    simp [hc, hy, List.mem_filter] <;> tauto

/-- Membership description of the inner-merged long table. -/
theorem mem_df_long_filtered (long : List LongRow) (dfF : Table) (lr : LongRow) :
    lr ∈ df_long_filtered long dfF ↔
      lr ∈ long ∧ ∃ r ∈ dfF.rows, r.city = lr.city ∧ r.country = lr.country := by
  simp only [df_long_filtered, List.mem_flatMap, List.mem_filterMap, List.mem_map]
  constructor
  · rintro ⟨lr1, hlr1, k, ⟨r, hr, rfl⟩, hk⟩
    by_cases h : lr1.city = r.city ∧ lr1.country = r.country
    · rw [if_pos h] at hk
      cases hk
      exact ⟨hlr1, r, hr, h.1.symm, h.2.symm⟩
    · rw [if_neg h] at hk
      exact absurd hk (by simp)
  · rintro ⟨hlr, r, hr, hcity, hcountry⟩
    exact ⟨lr, hlr, (r.city, r.country), ⟨r, hr, rfl⟩, by
      rw [if_pos ⟨hcity.symm, hcountry.symm⟩]⟩

/-! Aggregates and ranking (app.py lines 117-131 and 161-186). -/

/-- Arithmetic mean of a list of rationals, the mean pandas takes of the
non-NaN values of a group. -/
def qmean (l : List ℚ) : ℚ := l.sum / l.length

/-- Non-absent readings of the selected year column over the rows of `df`
whose country is `k`: the values `groupby("country")[selected_year].mean()`
averages within the group of `k`. -/
def yearVals (df : Table) (selected_year k : String) : List ℚ :=
  (df.rows.filter fun r => r.country = k).filterMap fun r => cellAt df.cols r.cells selected_year

/-- Choropleth data `country_year` (app.py lines 161-167): per-country mean of
the selected year over the given table, groups whose mean is NaN (no
non-absent reading) dropped by `.dropna()`. Group keys are the distinct
countries, sorted, as `groupby` produces them. -/
def country_year (selected_year : String) (df : Table) : List (String × ℚ) :=
  ((sortedUnique (df.rows.map (·.country))).filter
      fun k => !(yearVals df selected_year k).isEmpty).map
    fun k => (k, qmean (yearVals df selected_year k))

/-- Descending comparison used by `sort_values("pm25", ascending=False)`:
`a` may precede `b` exactly when `b`'s value is at most `a`'s. -/
def pmGE (a b : String × ℚ) : Prop := b.2 ≤ a.2

instance : DecidableRel pmGE := fun a b => inferInstanceAs (Decidable (b.2 ≤ a.2))

instance : IsTotal (String × ℚ) pmGE := ⟨fun a b => le_total b.2 a.2⟩

instance : IsTrans (String × ℚ) pmGE := ⟨fun _ _ _ h1 h2 => le_trans h2 h1⟩

/-- Deterministic stand-in for `sort_values("pm25", ascending=False)`, whose
default `kind` is quicksort — documented by pandas as not stable, so the code
leaves the order among equal values unspecified. The stand-in is a descending
insertion sort; no theorem below relies on where it places tied values. -/
def sortDesc (l : List (String × ℚ)) : List (String × ℚ) := l.insertionSort pmGE

/-- Ranking top-N, generalising the dashboard's fixed `N = 10`: sort
descending by value and keep the first `n` entries (`.head(n)`). -/
def topN (n : ℕ) (l : List (String × ℚ)) : List (String × ℚ) := (sortDesc l).take n

/-- Bar-chart data `top10` (app.py line 186):
`country_year.sort_values("pm25", ascending=False).head(10)`. -/
def top10 (country_year : List (String × ℚ)) : List (String × ℚ) := topN 10 country_year

/-! The KPI block (app.py lines 117-131). -/

/-- Non-absent pm25 readings of country `k` in a long table: the values
`df_long.groupby("country")["pm25"].mean()` averages within the group. -/
def pmVals (long : List LongRow) (k : String) : List ℚ :=
  (long.filter fun lr => lr.country = k).filterMap (·.pm25)

/-- Series `country_mean_all_years` (app.py lines 117-119): per-country mean
of pm25 over the whole long table, NaN groups dropped, sorted descending by
value. -/
def country_mean_all_years (long : List LongRow) : List (String × ℚ) :=
  sortDesc (((sortedUnique (long.map (·.country))).filter
      fun k => !(pmVals long k).isEmpty).map
    fun k => (k, qmean (pmVals long k)))

/-- The four KPI metrics of the Overview tab. -/
structure KPI where
  highest_country : String
  highest_value : ℚ
  lowest_country : String
  lowest_value : ℚ
  global_mean : ℚ
  num_countries : ℕ
deriving DecidableEq

/-- First pair achieving the maximal value, as pandas `idxmax`/`max` (first
occurrence wins); `none` on the empty series. -/
def idxmaxPair : List (String × ℚ) → Option (String × ℚ)
  | [] => none
  | p :: l =>
    match idxmaxPair l with
    | none => some p
    | some q => if p.2 < q.2 then some q else some p

/-- First pair achieving the minimal value, as pandas `idxmin`/`min` (first
occurrence wins); `none` on the empty series. -/
def idxminPair : List (String × ℚ) → Option (String × ℚ)
  | [] => none
  | p :: l =>
    match idxminPair l with
    | none => some p
    | some q => if q.2 < p.2 then some q else some p

/-- Sentinel KPI result of the empty branch (app.py lines 128-131). -/
def emptyKPI : KPI := ⟨"N/A", 0, "N/A", 0, 0, 0⟩

/-- The KPI block (app.py lines 121-131): extrema, mean of means and country
count from `country_mean_all_years`, or the sentinel when the series is empty. -/
def overview_kpis (long : List LongRow) : KPI :=
  let cm := country_mean_all_years long
  match idxmaxPair cm, idxminPair cm with
  | some mx, some mn =>
      ⟨mx.1, mx.2, mn.1, mn.2, qmean (cm.map (·.2)), ((cm.map (·.1)).dedup).length⟩
  | _, _ => emptyKPI

/-! One full run of the script, tying loading, filtering and the Overview
computations together (app.py lines 48-198). -/

/-- The sidebar selections of one run (app.py lines 56-82). -/
structure Selection where
  selected_year : String
  selected_country : String
  selected_city : String
deriving DecidableEq

/-- The derived outputs of one run that the claims speak about. -/
structure RunOutputs where
  kpis : KPI
  dfFiltered : Table
  dfLongFiltered : List LongRow
  top10Chart : List (String × ℚ)
deriving DecidableEq

/-- One dashboard run: load, apply the sidebar filters, compute the global
KPIs from the unfiltered long table (app.py line 118) and the top-10 chart
from the country-filtered `country_year`. -/
def runDashboard (t : Table) (sel : Selection) : RunOutputs :=
  let L := load_data t
  ⟨overview_kpis L.df_long,
   df_filtered sel.selected_country sel.selected_city L.df,
   df_long_filtered L.df_long (df_filtered sel.selected_country sel.selected_city L.df),
   top10 (country_year sel.selected_year (df_country_filtered sel.selected_country L.df))⟩

/-! Helper lemmas about the sorted views and aggregates. -/

/-- Membership in the sorted-unique view is membership in the original list. -/
theorem mem_sortedUnique (l : List String) (c : String) :
    c ∈ sortedUnique l ↔ c ∈ l := by
  unfold sortedUnique
  rw [List.mem_insertionSort, List.mem_dedup]

/-- The sorted-unique view has no duplicates. -/
theorem sortedUnique_nodup (l : List String) : (sortedUnique l).Nodup :=
  ((List.perm_insertionSort _ _).nodup_iff).mpr (List.nodup_dedup l)

/-! Concrete sample data, following the worked example of the specification:
rows (Lahore, Pakistan, 2020 = 120, 2021 = 0) and (Karachi, Pakistan,
2020 = 80, 2021 absent). -/

/-- Sample raw table used to instantiate the claim theorems. -/
def exampleRaw : Table :=
  ⟨["2020", "2021"],
   [⟨"Lahore", "Pakistan", [some 120, some 0]⟩,
    ⟨"Karachi", "Pakistan", [some 80, none]⟩]⟩

/-! The claims. -/

/-- C1: after Load & Normalize, no cell of a recognised year column holds the
value 0 — every year-column value exactly equal to 0 in the raw input became
absent in the wide table, and the absence propagates to the long table. -/
theorem c1_zero_as_missing (t : Table) :
    (∀ cells y, isDigitStr y = true →
        cellAt t.cols (normalizeCells t.cols cells) y
          = zeroToNone (cellAt t.cols cells y)) ∧
    (∀ r ∈ (load_data t).df.rows, ∀ y ∈ (load_data t).year_cols,
        cellAt (load_data t).df.cols r.cells y ≠ some 0) ∧
    (∀ lr ∈ (load_data t).df_long, lr.pm25 ≠ some 0) := by
  refine ⟨fun cells y hy => cellAt_normalizeCells t.cols cells y hy, ?_, ?_⟩
  · rintro r hr y hy
    simp only [load_data, normalize, List.mem_map] at hr
    obtain ⟨r0, _, rfl⟩ := hr
    have hyd : isDigitStr y = true := by
      simp only [load_data, yearColsOf, normalize] at hy
      exact (List.mem_filter.mp hy).2
    exact cellAt_normalizeCells_ne_zero t.cols r0.cells y hyd
  · rintro lr hlr
    have hlr2 : lr ∈ melt (normalize t) := by simpa [load_data] using hlr
    rw [mem_melt] at hlr2
    obtain ⟨y, hy, r, hr, rfl⟩ := hlr2
    have hyd : isDigitStr y = true := by
      simp only [yearColsOf, normalize] at hy
      exact (List.mem_filter.mp hy).2
    simp only [normalize, List.mem_map] at hr
    obtain ⟨r0, _, rfl⟩ := hr
    exact cellAt_normalizeCells_ne_zero t.cols r0.cells y hyd

/-- C1 witness: the sample raw table, whose Lahore 2021 reading is a literal
zero, satisfies the zero-as-missing statement. -/
theorem c1_zero_as_missing_witness :
    (∀ cells y, isDigitStr y = true →
        cellAt exampleRaw.cols (normalizeCells exampleRaw.cols cells) y
          = zeroToNone (cellAt exampleRaw.cols cells y)) ∧
    (∀ r ∈ (load_data exampleRaw).df.rows, ∀ y ∈ (load_data exampleRaw).year_cols,
        cellAt (load_data exampleRaw).df.cols r.cells y ≠ some 0) ∧
    (∀ lr ∈ (load_data exampleRaw).df_long, lr.pm25 ≠ some 0) :=
  c1_zero_as_missing exampleRaw

/-- C2: the long table has exactly `len(wide) * len(year_cols)` rows; each long
row copies a wide row's city and country, carries the integer cast of a year
label, and its pm25 equals the corresponding wide cell (so it is absent exactly
where the wide cell is absent); conversely every (row, year) pair of the wide
table occurs in the long table. -/
theorem c2_long_table_shape (t : Table) :
    (load_data t).df_long.length
        = (load_data t).df.rows.length * (load_data t).year_cols.length ∧
    (∀ lr ∈ (load_data t).df_long, ∃ r ∈ (load_data t).df.rows,
        ∃ y ∈ (load_data t).year_cols,
          lr.city = r.city ∧ lr.country = r.country ∧ lr.year = yearToInt y ∧
            lr.pm25 = cellAt (load_data t).df.cols r.cells y) ∧
    (∀ r ∈ (load_data t).df.rows, ∀ y ∈ (load_data t).year_cols,
        (⟨r.city, r.country, yearToInt y, cellAt (load_data t).df.cols r.cells y⟩ : LongRow)
          ∈ (load_data t).df_long) := by
  refine ⟨?_, ?_, ?_⟩
  · simpa [load_data] using (melt_length (normalize t)).trans (Nat.mul_comm _ _)
  · intro lr hlr
    have hlr2 : lr ∈ melt (normalize t) := by simpa [load_data] using hlr
    rw [mem_melt] at hlr2
    obtain ⟨y, hy, r, hr, rfl⟩ := hlr2
    exact ⟨r, by simpa [load_data] using hr, y, by simpa [load_data] using hy,
      rfl, rfl, rfl, rfl⟩
  · intro r hr y hy
    have hr2 : r ∈ (normalize t).rows := by simpa [load_data] using hr
    have hy2 : y ∈ yearColsOf (normalize t) := by simpa [load_data] using hy
    simpa [load_data] using mk_mem_melt (normalize t) hr2 hy2

/-- C2 witness: the long-table shape statement at the sample raw table. -/
theorem c2_long_table_shape_witness :
    (load_data exampleRaw).df_long.length
        = (load_data exampleRaw).df.rows.length * (load_data exampleRaw).year_cols.length ∧
    (∀ lr ∈ (load_data exampleRaw).df_long, ∃ r ∈ (load_data exampleRaw).df.rows,
        ∃ y ∈ (load_data exampleRaw).year_cols,
          lr.city = r.city ∧ lr.country = r.country ∧ lr.year = yearToInt y ∧
            lr.pm25 = cellAt (load_data exampleRaw).df.cols r.cells y) ∧
    (∀ r ∈ (load_data exampleRaw).df.rows, ∀ y ∈ (load_data exampleRaw).year_cols,
        (⟨r.city, r.country, yearToInt y,
            cellAt (load_data exampleRaw).df.cols r.cells y⟩ : LongRow)
          ∈ (load_data exampleRaw).df_long) :=
  c2_long_table_shape exampleRaw

/-- C3: for data with at least one recognised year column, the filtered long
table is the inner join of the long table with the filtered wide table on the
(city, country) keys, and its distinct (city, country) pairs are exactly those
of the filtered wide table. -/
theorem c3_join_consistency (t : Table) (selected_country selected_city : String)
    (hyc : (load_data t).year_cols ≠ []) :
    (∀ lr, lr ∈ df_long_filtered (load_data t).df_long
          (df_filtered selected_country selected_city (load_data t).df) ↔
        lr ∈ (load_data t).df_long ∧
          ∃ r ∈ (df_filtered selected_country selected_city (load_data t).df).rows,
            r.city = lr.city ∧ r.country = lr.country) ∧
    (∀ p : String × String,
        (∃ lr ∈ df_long_filtered (load_data t).df_long
              (df_filtered selected_country selected_city (load_data t).df),
            lr.city = p.1 ∧ lr.country = p.2) ↔
        (∃ r ∈ (df_filtered selected_country selected_city (load_data t).df).rows,
            r.city = p.1 ∧ r.country = p.2)) := by
  constructor
  · intro lr
    exact mem_df_long_filtered _ _ lr
  · intro p
    constructor
    · rintro ⟨lr, hlr, hc, hk⟩
      obtain ⟨-, r, hr, hrc, hrk⟩ := (mem_df_long_filtered _ _ lr).mp hlr
      exact ⟨r, hr, by rw [hrc, hc], by rw [hrk, hk]⟩
    · rintro ⟨r, hr, hc, hk⟩
      obtain ⟨y, hy⟩ := List.exists_mem_of_ne_nil _ hyc
      have hrdf : r ∈ (load_data t).df.rows :=
        (df_filtered_sublist selected_country selected_city (load_data t).df).subset hr
      have hmem : (⟨r.city, r.country, yearToInt y,
            cellAt (load_data t).df.cols r.cells y⟩ : LongRow) ∈ (load_data t).df_long := by
        have hr2 : r ∈ (normalize t).rows := by simpa [load_data] using hrdf
        have hy2 : y ∈ yearColsOf (normalize t) := by simpa [load_data] using hy
        simpa [load_data] using mk_mem_melt (normalize t) hr2 hy2
      refine ⟨⟨r.city, r.country, yearToInt y, cellAt (load_data t).df.cols r.cells y⟩,
        ?_, hc, hk⟩
      exact (mem_df_long_filtered _ _ _).mpr ⟨hmem, r, hr, rfl, rfl⟩

/-- C3 witness: join consistency at the sample raw table with both filters set
to "All"; the sample has two year columns, so the hypothesis holds. -/
theorem c3_join_consistency_witness :
    (load_data exampleRaw).year_cols ≠ [] ∧
    ((∀ lr, lr ∈ df_long_filtered (load_data exampleRaw).df_long
          (df_filtered "All" "All" (load_data exampleRaw).df) ↔
        lr ∈ (load_data exampleRaw).df_long ∧
          ∃ r ∈ (df_filtered "All" "All" (load_data exampleRaw).df).rows,
            r.city = lr.city ∧ r.country = lr.country) ∧
    (∀ p : String × String,
        (∃ lr ∈ df_long_filtered (load_data exampleRaw).df_long
              (df_filtered "All" "All" (load_data exampleRaw).df),
            lr.city = p.1 ∧ lr.country = p.2) ↔
        (∃ r ∈ (df_filtered "All" "All" (load_data exampleRaw).df).rows,
            r.city = p.1 ∧ r.country = p.2))) :=
  ⟨by decide, c3_join_consistency exampleRaw "All" "All" (by decide)⟩

/-- C6: the per-country mean aggregate of a year contains a pair `(k, m)`
exactly when `k` is a country of the table with at least one non-absent
reading for that year and `m` is the mean of those readings; its key column
has no duplicates — in particular a country with zero non-absent readings
never appears, not even mapped to zero. -/
theorem c6_country_year_mean (df : Table) (selected_year k : String) (m : ℚ) :
    ((k, m) ∈ country_year selected_year df ↔
      ((∃ r ∈ df.rows, r.country = k) ∧ yearVals df selected_year k ≠ [] ∧
        m = qmean (yearVals df selected_year k))) ∧
    ((country_year selected_year df).map Prod.fst).Nodup := by
  constructor
  · constructor
    · intro h
      simp only [country_year, List.mem_map] at h
      obtain ⟨k1, hk1, heq⟩ := h
      injection heq with h1 h2
      subst h1
      obtain ⟨hmem, hpred⟩ := List.mem_filter.mp hk1
      refine ⟨?_, ?_, h2.symm⟩
      · obtain ⟨r, hr, hrk⟩ := List.mem_map.mp ((mem_sortedUnique _ _).mp hmem)
        exact ⟨r, hr, hrk⟩
      · intro hnil
        simp [hnil] at hpred
    · rintro ⟨⟨r, hr, hrk⟩, hne, rfl⟩
      simp only [country_year, List.mem_map]
      refine ⟨k, List.mem_filter.mpr ⟨?_, ?_⟩, rfl⟩
      · exact (mem_sortedUnique _ _).mpr (List.mem_map.mpr ⟨r, hr, hrk⟩)
      · simpa [List.isEmpty_iff] using hne
  · have hmap : ((country_year selected_year df).map Prod.fst)
        = (sortedUnique (df.rows.map (·.country))).filter
            (fun k => !(yearVals df selected_year k).isEmpty) := by
      simp only [country_year, List.map_map]
      exact List.map_id'' (fun k => rfl) _
    rw [hmap]
    exact (sortedUnique_nodup _).filter _

/-- C6 witness: the aggregate statement at the sample load, year "2020",
country Pakistan and its mean reading 100 = (120 + 80) / 2. -/
theorem c6_country_year_mean_witness :
    (("Pakistan", (100 : ℚ)) ∈ country_year "2020" (load_data exampleRaw).df ↔
      ((∃ r ∈ (load_data exampleRaw).df.rows, r.country = "Pakistan") ∧
        yearVals (load_data exampleRaw).df "2020" "Pakistan" ≠ [] ∧
        (100 : ℚ) = qmean (yearVals (load_data exampleRaw).df "2020" "Pakistan"))) ∧
    ((country_year "2020" (load_data exampleRaw).df).map Prod.fst).Nodup :=
  c6_country_year_mean (load_data exampleRaw).df "2020" "Pakistan" 100

/-- C7: when no long row carries a non-absent reading, the KPI block returns
the defined sentinel result (placeholder names, 0 values, country count 0)
instead of failing. -/
theorem c7_empty_sentinel (long : List LongRow) (h : ∀ lr ∈ long, lr.pm25 = none) :
    overview_kpis long = emptyKPI := by
  have hpv : ∀ k, pmVals long k = [] := by
    intro k
    unfold pmVals
    rw [List.filterMap_eq_nil_iff]
    intro lr hlr
    exact h lr (List.mem_filter.mp hlr).1
  have hcm : country_mean_all_years long = [] := by
    unfold country_mean_all_years
    have hf : (sortedUnique (long.map (·.country))).filter
        (fun k => !(pmVals long k).isEmpty) = [] := by
      rw [List.filter_eq_nil_iff]
      intro k _
      simp [hpv k]
    rw [hf]
    rfl
  simp only [overview_kpis, hcm]
  rfl

/-- Sample long table with a single, absent, reading. -/
def exampleEmptyLong : List LongRow := [⟨"Lahore", "Pakistan", 2020, none⟩]

/-- C7 witness: the sentinel result on a long table whose only reading is
absent. -/
theorem c7_empty_sentinel_witness :
    (∀ lr ∈ exampleEmptyLong, lr.pm25 = none) ∧
      overview_kpis exampleEmptyLong = emptyKPI :=
  ⟨by decide, c7_empty_sentinel exampleEmptyLong (by decide)⟩

/-- C8: the Filter operation, its optional numeric range modelled from the
spec, returns a subset of the wide table containing exactly the rows that
satisfy the conjunction of all provided predicates, and a row whose cell for
the range's year is absent never satisfies the range predicate. -/
theorem c8_filter_conjunction (df : Table) (selected_country selected_city : String)
    (range : Option (String × ℚ × ℚ)) :
    List.Sublist (df_filtered_range selected_country selected_city range df).rows df.rows ∧
    (∀ r, r ∈ (df_filtered_range selected_country selected_city range df).rows ↔
        r ∈ df.rows ∧ (selected_country = "All" ∨ r.country = selected_country) ∧
          (selected_city = "All" ∨ r.city = selected_city) ∧
          (∀ y lo hi, range = some (y, lo, hi) → rangePred df.cols y lo hi r = true)) ∧
    (∀ y lo hi r, cellAt df.cols r.cells y = none → rangePred df.cols y lo hi r = false) := by
  refine ⟨?_, ?_, ?_⟩
  · cases range with
    | none => exact df_filtered_sublist selected_country selected_city df
    | some rg =>
      obtain ⟨y, lo, hi⟩ := rg
      exact (List.filter_sublist _).trans
        (df_filtered_sublist selected_country selected_city df)
  · intro r
    cases range with
    | none =>
      simp only [df_filtered_range]
      rw [mem_df_filtered]
      constructor
      · rintro ⟨hm, hc, hy⟩
        exact ⟨hm, hc, hy, by rintro y lo hi ⟨⟩⟩
      · rintro ⟨hm, hc, hy, -⟩
        exact ⟨hm, hc, hy⟩
    | some rg =>
      obtain ⟨y, lo, hi⟩ := rg
      simp only [df_filtered_range]
      rw [List.mem_filter, mem_df_filtered]
      constructor
      · rintro ⟨⟨hm, hc, hy⟩, hrp⟩
        refine ⟨hm, hc, hy, ?_⟩
        rintro y1 lo1 hi1 heq
        injection heq with heq1
        injection heq1 with h1 h23
        injection h23 with h2 h3
        subst h1; subst h2; subst h3
        exact hrp
      · rintro ⟨hm, hc, hy, hall⟩
        exact ⟨⟨hm, hc, hy⟩, hall y lo hi rfl⟩
  · intro y lo hi r hnone
    simp [rangePred, hnone]

/-- C8 witness: the filter statement at the sample load with country Pakistan,
city "All" and a numeric range on the 2020 column. -/
theorem c8_filter_conjunction_witness :
    List.Sublist
      (df_filtered_range "Pakistan" "All" (some ("2020", 50, 150))
        (load_data exampleRaw).df).rows (load_data exampleRaw).df.rows ∧
    (∀ r, r ∈ (df_filtered_range "Pakistan" "All" (some ("2020", 50, 150))
          (load_data exampleRaw).df).rows ↔
        r ∈ (load_data exampleRaw).df.rows ∧
          ("Pakistan" = "All" ∨ r.country = "Pakistan") ∧
          ("All" = "All" ∨ r.city = "All") ∧
          (∀ y lo hi, (some ("2020", (50 : ℚ), (150 : ℚ))) = some (y, lo, hi) →
            rangePred (load_data exampleRaw).df.cols y lo hi r = true)) ∧
    (∀ y lo hi r, cellAt (load_data exampleRaw).df.cols r.cells y = none →
        rangePred (load_data exampleRaw).df.cols y lo hi r = false) :=
  c8_filter_conjunction (load_data exampleRaw).df "Pakistan" "All" (some ("2020", 50, 150))

/-- Membership description of the dependent city dropdown options. -/
theorem mem_city_options (df : Table) (sel c : String) :
    c ∈ city_options sel df ↔
      (if sel = "All" then ∃ r ∈ df.rows, r.city = c
       else ∃ r ∈ df.rows, r.country = sel ∧ r.city = c) := by
  by_cases hc : sel = "All"
  · simp only [city_options, if_pos hc, mem_sortedUnique, List.mem_map]
  · simp only [city_options, if_neg hc, mem_sortedUnique, List.mem_map, List.mem_filter]
    constructor
    · rintro ⟨r, ⟨hr, hcy⟩, rfl⟩
      exact ⟨r, hr, by simpa using hcy, rfl⟩
    · rintro ⟨r, hr, hcy, rfl⟩
      exact ⟨r, ⟨hr, by simpa using hcy⟩, rfl⟩

/-- C9: the offered city choices are exactly the cities of the wide-table rows
of the selected country — all cities when the selection is "All" — and no
offered city lies outside the selected country. -/
theorem c9_city_options_consistent (df : Table) (selected_country c : String) :
    (c ∈ city_options selected_country df ↔
      (if selected_country = "All" then ∃ r ∈ df.rows, r.city = c
       else ∃ r ∈ df.rows, r.country = selected_country ∧ r.city = c)) ∧
    (selected_country ≠ "All" → ∀ c1 ∈ city_options selected_country df,
      ∃ r ∈ df.rows, r.country = selected_country ∧ r.city = c1) := by
  refine ⟨mem_city_options df selected_country c, ?_⟩
  intro hne c1 hc1
  have h := (mem_city_options df selected_country c1).mp hc1
  rwa [if_neg hne] at h

/-- C9 witness: the dropdown statement at the sample load with country
Pakistan and candidate city Lahore. -/
theorem c9_city_options_consistent_witness :
    ("Lahore" ∈ city_options "Pakistan" (load_data exampleRaw).df ↔
      (if "Pakistan" = "All"
       then ∃ r ∈ (load_data exampleRaw).df.rows, r.city = "Lahore"
       else ∃ r ∈ (load_data exampleRaw).df.rows,
        r.country = "Pakistan" ∧ r.city = "Lahore")) ∧
    ("Pakistan" ≠ "All" → ∀ c1 ∈ city_options "Pakistan" (load_data exampleRaw).df,
      ∃ r ∈ (load_data exampleRaw).df.rows, r.country = "Pakistan" ∧ r.city = c1) :=
  c9_city_options_consistent (load_data exampleRaw).df "Pakistan" "Lahore"

/-- C10: the Overview KPIs are computed from the full, unfiltered long table:
two runs of the dashboard on the same data that differ only in the selected
year, country or city produce identical KPI outputs. -/
theorem c10_kpis_filter_independent (t : Table) (sel1 sel2 : Selection) :
    (runDashboard t sel1).kpis = (runDashboard t sel2).kpis := rfl

/-- C10 witness: identical KPIs for two different filter selections on the
sample data. -/
theorem c10_kpis_filter_independent_witness :
    (runDashboard exampleRaw ⟨"2020", "All", "All"⟩).kpis
      = (runDashboard exampleRaw ⟨"2021", "Pakistan", "Karachi"⟩).kpis :=
  c10_kpis_filter_independent exampleRaw ⟨"2020", "All", "All"⟩
    ⟨"2021", "Pakistan", "Karachi"⟩

end AirPollution
